import Mathlib

/-!
Shallow embedding of the alerting pipeline of `space_alerrt_bot.py`
(repository NasaSpaceApp): the risk scoring function `score_risk`, the
data-fetching functions `fetch_latest_kp`, `fetch_latest_nasa_flare` and
`fetch_latest_cme`, the cache utilities `load_cache` / `save_cache`, the
message formatter `format_message`, and the orchestrating cycle
`check_and_alert`.

Numeric values (the NOAA Kp index, CME speeds) are modelled as rationals;
Python `None` becomes `Option.none`.  The outcome of an HTTP request
(`requests.get` + `raise_for_status` + `.json()`) is modelled by the
`HttpResult` type; a Python function that can raise an exception to its
caller returns `FetchOutcome.raised` in that case.
-/

namespace SpaceAlert

/-- Risk / severity levels of the bot, ordered green < yellow < red
(spec names: NORMAL < ELEVATED < CRITICAL). -/
inductive Risk where
  | green
  | yellow
  | red
deriving DecidableEq, Repr

/-- Numeric rank of a risk level, fixing the total order green < yellow < red. -/
def Risk.toNat : Risk → Nat
  | .green => 0
  | .yellow => 1
  | .red => 2

instance : LE Risk := ⟨fun a b => a.toNat ≤ b.toNat⟩

instance : LT Risk := ⟨fun a b => a.toNat < b.toNat⟩

instance (a b : Risk) : Decidable (a ≤ b) :=
  inferInstanceAs (Decidable (a.toNat ≤ b.toNat))

instance (a b : Risk) : Decidable (a < b) :=
  inferInstanceAs (Decidable (a.toNat < b.toNat))

/-- Maximum of two risk levels under the order green < yellow < red. -/
def Risk.max (a b : Risk) : Risk :=
  if a.toNat ≤ b.toNat then b else a

/-- Kp sub-score of `score_risk` (source lines 136-145): the local variable
`kp_risk`.  `kp >= 6.0` gives red, `kp >= 3.0` gives yellow, otherwise
green; a missing value (`None`) stays green. -/
def kp_risk_of (kp_value : Option ℚ) : Risk :=
  match kp_value with
  | none => .green
  | some kp =>
    if kp ≥ 6 then .red
    else if kp ≥ 3 then .yellow
    else .green

/-- Flare sub-score of `score_risk` (source lines 147-152): the local
variable `flare_risk`.  Class letter X gives red, M gives yellow,
anything else (including `None`) green. -/
def flare_risk_of (flare_class : Option Char) : Risk :=
  if flare_class = some 'X' then .red
  else if flare_class = some 'M' then .yellow
  else .green

/-- CME sub-score of `score_risk` (source lines 154-159): the local variable
`cme_risk`.  A present speed above 1000 gives red, above 600 yellow,
otherwise green. -/
def cme_risk_of (cme_speed : Option ℚ) : Risk :=
  match cme_speed with
  | none => .green
  | some speed =>
    if speed > 1000 then .red
    else if speed > 600 then .yellow
    else .green

/-- `score_risk` (source lines 133-167): combines the three sub-scores;
the final cascade returns red if any sub-score is red, else yellow if any
is yellow, else green. -/
def score_risk (kp_value : Option ℚ) (flare_class : Option Char)
    (cme_speed : Option ℚ) : Risk :=
  if kp_risk_of kp_value = .red ∨ flare_risk_of flare_class = .red ∨
      cme_risk_of cme_speed = .red then .red
  else if kp_risk_of kp_value = .yellow ∨ flare_risk_of flare_class = .yellow ∨
      cme_risk_of cme_speed = .yellow then .yellow
  else .green

/-- The red / yellow / green cascade of `score_risk` computes the maximum of
the three sub-scores under green < yellow < red. -/
lemma cascade_eq_max (a b c : Risk) :
    (if a = .red ∨ b = .red ∨ c = .red then Risk.red
     else if a = .yellow ∨ b = .yellow ∨ c = .yellow then Risk.yellow
     else Risk.green) = Risk.max (Risk.max a b) c := by
  cases a <;> cases b <;> cases c <;> decide

/-- Taking the maximum with a risk is monotone in both arguments. -/
lemma Risk.max_mono : ∀ a a₂ b b₂ : Risk,
    a ≤ a₂ → b ≤ b₂ → Risk.max a b ≤ Risk.max a₂ b₂ := by
  intro a a₂ b b₂
  cases a <;> cases a₂ <;> cases b <;> cases b₂ <;> decide

/-- green is a left identity of `Risk.max`. -/
lemma Risk.green_max (b : Risk) : Risk.max .green b = b := by
  cases b <;> rfl

/-- green is a right identity of `Risk.max`. -/
lemma Risk.max_green (a : Risk) : Risk.max a .green = a := by
  cases a <;> rfl

/-- Outcome of one HTTP request as seen by the fetch functions: the
combined behaviour of `requests.get(url, timeout=15)`, `r.raise_for_status()`
and `r.json()`.  `transportError` is a network failure or timeout
(`requests.exceptions.ConnectionError` / `Timeout`), `httpError` a non-2xx
response (`raise_for_status` raises `HTTPError`), `malformed` a body that
is not valid JSON (`r.json()` raises `requests.exceptions.JSONDecodeError`);
all three are subclasses of `requests.exceptions.RequestException`.
`ok` carries the decoded payload. -/
inductive HttpResult (α : Type) where
  | transportError
  | httpError (code : Nat)
  | malformed
  | ok (payload : α)
deriving DecidableEq, Repr

/-- Result of calling a Python fetch function: either an exception
propagates to the caller (`raised`), or a value is returned (`value none`
models returning `None`, i.e. Unavailable). -/
inductive FetchOutcome (α : Type) where
  | raised
  | value (v : Option α)
deriving DecidableEq, Repr

/-- One entry of the NOAA planetary-K-index JSON array, restricted to the
fields `fetch_latest_kp` looks at.  A `none` field is an absent key. -/
structure KpEntry where
  kp_index : Option ℚ
  kp : Option ℚ
  Kp : Option ℚ
  time_tag : Option String
  date_time : Option String
  timestamp : Option String
  date : Option String
deriving DecidableEq, Repr

/-- The dictionary `fetch_latest_kp` returns on success:
`{"kp": ..., "time": t, "raw": latest}`. -/
structure KpReading where
  kp : Option ℚ
  time : Option String
  raw : KpEntry
deriving DecidableEq, Repr

/-- Python `a or b` on an optional string: `a` unless it is `None` or
empty (falsy). -/
def pyOr (a : Option String) (b : Option String) : Option String :=
  match a with
  | none => b
  | some s => if s = "" then b else some s

/-- The first present key among `kp_index`, `kp`, `Kp` (the `for key in ...`
loop of `fetch_latest_kp`, source lines 74-78).  Presence of the key is
what the loop checks; a present key holds the value. -/
def kpFieldLookup (latest : KpEntry) : Option ℚ :=
  match latest.kp_index with
  | some v => some v
  | none =>
    match latest.kp with
    | some v => some v
    | none => latest.Kp

/-- `fetch_latest_kp` (source lines 65-81).  There is no try/except in
this function: a transport failure, timeout, bad HTTP status or malformed
JSON body makes the exception propagate to the caller (`raised`).
An empty array returns `None`; otherwise the first entry is parsed. -/
def fetch_latest_kp (r : HttpResult (List KpEntry)) : FetchOutcome KpReading :=
  match r with
  | .transportError => .raised
  | .httpError _ => .raised
  | .malformed => .raised
  | .ok arr =>
    match arr with
    | [] => .value none
    | latest :: _ =>
      let kp := kpFieldLookup latest
      let t := pyOr (pyOr (pyOr latest.time_tag latest.date_time)
        latest.timestamp) latest.date
      .value (some { kp := kp, time := t, raw := latest })

/-- One entry of the NASA DONKI FLR JSON array, restricted to the fields
`fetch_latest_nasa_flare` looks at. -/
structure FlareEntry where
  classType : Option String
  beginTime : Option String
deriving DecidableEq, Repr

/-- The dictionary `fetch_latest_nasa_flare` returns on success:
`{"class": flare_class, "time": time_tag, "raw": latest_flare}`, where
`flare_class` is the first character of the class code. -/
structure FlareReading where
  flareClass : Char
  time : Option String
  raw : FlareEntry
deriving DecidableEq, Repr

/-- The default class code used by `latest_flare.get("classType", "B0.0")`. -/
def defaultClassType : String := "B0.0"

/-- `fetch_latest_nasa_flare` (source lines 84-104).  The whole body is in
a `try` block whose handler catches `requests.exceptions.RequestException`
and returns `None`, so transport failures, timeouts, bad statuses and
malformed bodies all yield `None`.  An empty list returns `None`.
Otherwise `latest_flare.get("classType", "B0.0")[0]` takes the first
character of the class code (defaulting the missing key to "B0.0"); on an
empty `classType` string the `[0]` raises `IndexError`, which the handler
does not catch. -/
def fetch_latest_nasa_flare (r : HttpResult (List FlareEntry)) :
    FetchOutcome FlareReading :=
  match r with
  | .transportError => .value none
  | .httpError _ => .value none
  | .malformed => .value none
  | .ok flares =>
    match flares with
    | [] => .value none
    | latest_flare :: _ =>
      match (latest_flare.classType.getD defaultClassType).data with
      | [] => .raised
      | c :: _ =>
        .value (some
          { flareClass := c
            time := latest_flare.beginTime
            raw := latest_flare })

/-- One entry of the NASA DONKI CMEAnalysis JSON array, restricted to the
fields `fetch_latest_cme` looks at. -/
structure CmeEntry where
  isMostAccurate : Option Bool
  speed : Option ℚ
deriving DecidableEq, Repr

/-- The dictionary `fetch_latest_cme` returns on success:
`{"speed": speed, "raw": analysis}`. -/
structure CmeReading where
  speed : ℚ
  raw : CmeEntry
deriving DecidableEq, Repr

/-- The test `if is_most_accurate and speed and speed > 600` of
`fetch_latest_cme`: `is_most_accurate` truthy (present and `True`),
`speed` truthy (present and nonzero) and above 600. -/
def cmeSignificant (analysis : CmeEntry) : Bool :=
  (analysis.isMostAccurate.getD false) &&
    (match analysis.speed with
     | none => false
     | some speed => decide (speed ≠ 0) && decide (speed > 600))

/-- The `for analysis in cme_analyses` loop of `fetch_latest_cme`: return
the first significant analysis, else `None`. -/
def findSignificantCme : List CmeEntry → Option CmeReading
  | [] => none
  | analysis :: rest =>
    if cmeSignificant analysis then
      match analysis.speed with
      | some speed => some { speed := speed, raw := analysis }
      | none => findSignificantCme rest
    else findSignificantCme rest

/-- `fetch_latest_cme` (source lines 106-129).  Like the flare fetch, the
body is guarded by a handler for `RequestException` returning `None`; an
empty list or no significant earth-directed CME yields `None`. -/
def fetch_latest_cme (r : HttpResult (List CmeEntry)) :
    FetchOutcome CmeReading :=
  match r with
  | .transportError => .value none
  | .httpError _ => .value none
  | .malformed => .value none
  | .ok cme_analyses => .value (findSignificantCme cme_analyses)

/-- The persisted dedup record `last_alert_cache.json`: the keys
`check_and_alert` stores (source lines 273-277) and reads back with
`cache.get(...)` (source lines 239, 242).  A `none` field is an absent
key (or a stored JSON `null` for `last_kp`). -/
structure Cache where
  last_kp : Option ℚ
  last_time : Option String
  last_risk : Option Risk
  last_sent_sid : Option String
  last_sent_at : Option String
deriving DecidableEq, Repr

/-- The empty dictionary `{}`. -/
def emptyCache : Cache :=
  { last_kp := none
    last_time := none
    last_risk := none
    last_sent_sid := none
    last_sent_at := none }

/-- State of the cache file on disk as `load_cache` finds it. -/
inductive CacheFile where
  | missing
  | corrupted
  | valid (contents : Cache)
deriving DecidableEq, Repr

/-- `load_cache` (source lines 52-58): a missing file returns `{}`; a file
whose contents fail to parse is caught by the bare `except` and returns
`{}`; otherwise the parsed contents are returned. -/
def load_cache : CacheFile → Cache
  | .missing => emptyCache
  | .corrupted => emptyCache
  | .valid contents => contents

/-- Python truthiness of an optional number: `not x` holds exactly when
`x` is `None` or zero. -/
def falsyNum (x : Option ℚ) : Bool :=
  match x with
  | none => true
  | some v => decide (v = 0)

/-- The localisation table of one language (source lines 30-49). -/
structure Phrases where
  title_red : String
  title_yellow : String
  title_green : String
  gps_advice : String
  power_advice : String
  flare_risk : String
  whenLabel : String
deriving DecidableEq, Repr

/-- The `"en"` entry of `PHRASES` (source lines 31-39); `whenLabel` is the
key `"when"`. -/
def PHRASES_en : Phrases :=
  { title_red := "⚠ High Space Risk — Action Needed!"
    title_yellow := "⚠ Moderate Space Risk — Caution"
    title_green := "✅ Space weather normal"
    gps_advice := "GPS & navigation may be inaccurate. Avoid precision machine work (seeding, mapping)."
    power_advice := "Power or communication disruptions possible — keep pumps/devices charged or on standby."
    flare_risk := "Solar Flare/CME Risk: Radio Blackouts & communication loss possible."
    whenLabel := "Observed at" }

/-- The `"ml"` (Malayalam) entry of `PHRASES` (source lines 40-48). -/
def PHRASES_ml : Phrases :=
  { title_red := "⚠ സൂര്യ പ്രവൃത്തിയൂൻ ഉയർന്നിരിക്കുന്നു — ശ്രദ്ധ വേണം"
    title_yellow := "⚠ മിതമായ സൂര്യ പ്രവൃത്തി — ജാഗ്രത"
    title_green := "✅ സാധാരണ സ്ഫേസ് വേതർ"
    gps_advice := "GPS ശതം കൃത്യമായിരിക്കില്ല. യന്ത്രവലംബ ജോലി മാറ്റിയിടുക."
    power_advice := "വൈദ്യുതി/കമ്യൂണിക്കേഷൻ പ്രശ്നം സാധ്യത — പമ്പുകൾ ചാർജ് ചെയ്യുക."
    flare_risk := "സോളാർ ഫ്ലെയർ/CME റിസ്ക്: റേഡിയോ തടസ്സങ്ങൾ സാധ്യത."
    whenLabel := "കണ്ടെടുത്തത്" }

/-- The English language key. -/
def enLang : String := "en"

/-- The Malayalam language key. -/
def mlLang : String := "ml"

/-- Lookup in the `PHRASES` dictionary, which has exactly the keys `"en"`
and `"ml"`. -/
def PHRASES (lang : String) : Option Phrases :=
  if lang = enLang then some PHRASES_en
  else if lang = mlLang then some PHRASES_ml
  else none

/-- The title selection of `format_message` (source lines 174-179). -/
def message_title (p : Phrases) (risk : Risk) : String :=
  match risk with
  | .red => p.title_red
  | .yellow => p.title_yellow
  | .green => p.title_green

/-- Python truthiness of the optional flare class (a one-character string
in the source, hence truthy exactly when present). -/
def flareTruthy (flare_class : Option Char) : Bool :=
  flare_class.isSome

/-- Python truthiness of the optional CME speed: truthy when present and
nonzero. -/
def cmeTruthy (cme_speed : Option ℚ) : Bool :=
  !(falsyNum cme_speed)

/-- The string `"None"`. -/
def noneStr : String := "None"

/-- Rendering of an optional number inside a Python f-string; the exact
float formatting is immaterial here, `None` renders as `"None"`. -/
def pyNumStr (x : Option ℚ) : String :=
  match x with
  | none => noneStr
  | some q => toString q

/-- Rendering of the optional flare class inside an f-string. -/
def pyCharStr (x : Option Char) : String :=
  match x with
  | none => noneStr
  | some c => String.singleton c

/-- The second line of `body_lines` with its two conditional `+=` suffixes
(source lines 181-190): the observation timestamp and Kp value, extended
with the flare class when the class is truthy and X or M, and with the
CME speed when it is truthy. -/
def message_obs_line (p : Phrases) (kp_val : Option ℚ) (time_str : String)
    (flare_class : Option Char) (cme_speed : Option ℚ) : String :=
  let line := p.whenLabel ++ ": " ++ time_str ++ " (Kp=" ++ pyNumStr kp_val ++ ")"
  let line := if flareTruthy flare_class &&
      decide (flare_class = some 'X' ∨ flare_class = some 'M') then
      line ++ " | Flare Class: " ++ pyCharStr flare_class
    else line
  if cmeTruthy cme_speed then
    line ++ " | CME Speed: " ++ pyNumStr cme_speed ++ " km/s"
  else line

/-- The closing line appended for a green message (source line 202). -/
def noActionLine : String := "No immediate action needed."

/-- The full `body_lines` list built by `format_message`
(source lines 171-202). -/
def format_message_lines (risk : Risk) (kp_val : Option ℚ) (time_str : String)
    (flare_class : Option Char) (cme_speed : Option ℚ) (lang : String) :
    List String :=
  let p := (PHRASES lang).getD PHRASES_en
  let title := message_title p risk
  let obs := message_obs_line p kp_val time_str flare_class cme_speed
  match risk with
  | .red => [title, obs, p.gps_advice, p.power_advice, p.flare_risk]
  | .yellow =>
    if flare_class = some 'M' ∨ cmeTruthy cme_speed then
      [title, obs, p.gps_advice, p.flare_risk]
    else
      [title, obs, p.gps_advice]
  | .green => [title, obs, noActionLine]

/-- The newline joining `body_lines`. -/
def newlineStr : String := String.singleton (Char.ofNat 10)

/-- `format_message` (source lines 171-204): `"\n".join(body_lines)`. -/
def format_message (risk : Risk) (kp_val : Option ℚ) (time_str : String)
    (flare_class : Option Char) (cme_speed : Option ℚ) (lang : String) :
    String :=
  String.intercalate newlineStr
    (format_message_lines risk kp_val time_str flare_class cme_speed lang)

/-- The divider `"\n\n---\n"` of `full_msg` (source line 268). -/
def msgDivider : String :=
  String.mk [Char.ofNat 10, Char.ofNat 10, '-', '-', '-', Char.ofNat 10]

/-- Python `a or b` for an optional string against a string default, as in
`kp_data["time"] or datetime.now(timezone.utc).isoformat()`. -/
def pyOrStr (a : Option String) (b : String) : String :=
  match a with
  | none => b
  | some s => if s = "" then b else s

/-- All external inputs of one `check_and_alert` cycle: the three HTTP
outcomes, the state of the cache file, the behaviour of the Twilio gateway
(`some sid`: `client.messages.create` returns a message with that sid;
`none`: `send_whatsapp` raises), and the two clock readings taken during
the cycle. -/
structure CycleInput where
  kpHttp : HttpResult (List KpEntry)
  flareHttp : HttpResult (List FlareEntry)
  cmeHttp : HttpResult (List CmeEntry)
  cacheFile : CacheFile
  gateway : Option String
  nowClean : String
  nowIso : String

/-- The record written to `status.json` (source lines 250-260). -/
structure Status where
  risk : Risk
  kp_value : Option ℚ
  flare_class : Option Char
  cme_speed : Option ℚ
  time : String
deriving DecidableEq, Repr

/-- Observable effects of one `check_and_alert` call: the contents written
to `status.json` (if that point was reached), whether `send_whatsapp` was
invoked and with which message, and the contents passed to `save_cache`
(if called). -/
structure CycleResult where
  statusWritten : Option Status
  sent : Bool
  sentMessage : Option String
  savedCache : Option Cache
deriving DecidableEq, Repr

/-- A cycle that wrote nothing: an early `return` or an exception caught
by the outer `except` of `check_and_alert` before any effect. -/
def CycleResult.nothing : CycleResult :=
  { statusWritten := none
    sent := false
    sentMessage := none
    savedCache := none }

/-- `check_and_alert` (source lines 216-283).  The body sits in a
`try`/`except Exception` block, so an exception raised anywhere inside
(by `fetch_latest_kp`, which has no handler of its own, or by
`send_whatsapp`) ends the cycle there; effects already performed remain.
The dispatch decision (lines 238-243) sets `should_send` when
`not last` (truthiness of the cached `last_kp`) or the new risk differs
from the cached `last_risk`; `status.json` is written before that branch
runs, and `save_cache` runs only after a successful send. -/
def check_and_alert (i : CycleInput) : CycleResult :=
  match fetch_latest_kp i.kpHttp with
  | .raised => CycleResult.nothing
  | .value none => CycleResult.nothing
  | .value (some kp_data) =>
    let kp := kp_data.kp
    let t := pyOrStr kp_data.time i.nowIso
    match fetch_latest_nasa_flare i.flareHttp with
    | .raised => CycleResult.nothing
    | .value flare_data =>
      let flare_class := flare_data.map FlareReading.flareClass
      match fetch_latest_cme i.cmeHttp with
      | .raised => CycleResult.nothing
      | .value cme_data =>
        let cme_speed := cme_data.map CmeReading.speed
        let risk := score_risk kp flare_class cme_speed
        let cache := load_cache i.cacheFile
        let last := cache.last_kp
        let should_send := falsyNum last || decide (some risk ≠ cache.last_risk)
        let current_status : Status :=
          { risk := risk
            kp_value := kp
            flare_class := flare_class
            cme_speed := cme_speed
            time := i.nowClean }
        if should_send then
          let msg_en := format_message risk kp t flare_class cme_speed enLang
          let msg_ml := format_message risk kp t flare_class cme_speed mlLang
          let full_msg := msg_en ++ msgDivider ++ msg_ml
          match i.gateway with
          | none =>
            { statusWritten := some current_status
              sent := true
              sentMessage := some full_msg
              savedCache := none }
          | some sid =>
            let cache2 :=
              { cache with
                last_kp := kp
                last_time := some t
                last_risk := some risk
                last_sent_sid := some sid
                last_sent_at := some i.nowIso }
            { statusWritten := some current_status
              sent := true
              sentMessage := some full_msg
              savedCache := some cache2 }
        else
          { statusWritten := some current_status
            sent := false
            sentMessage := none
            savedCache := none }

/-- The cache file as the next cycle's `load_cache` will find it:
`save_cache` (source lines 60-61) overwrites it when called, otherwise it
is unchanged. -/
def nextCacheFile (i : CycleInput) : CacheFile :=
  match (check_and_alert i).savedCache with
  | some c => .valid c
  | none => i.cacheFile

/-- In a cycle whose three fetches return without raising and whose Kp
fetch yields a reading, the notifier is invoked exactly when the cached
`last_kp` is falsy or the new risk differs from the cached `last_risk`
(the `should_send` computation, source lines 238-243). -/
lemma cycle_sent_iff (i : CycleInput) (kd : KpReading)
    (fd : Option FlareReading) (cd : Option CmeReading)
    (hk : fetch_latest_kp i.kpHttp = .value (some kd))
    (hf : fetch_latest_nasa_flare i.flareHttp = .value fd)
    (hc : fetch_latest_cme i.cmeHttp = .value cd) :
    (check_and_alert i).sent =
      (falsyNum (load_cache i.cacheFile).last_kp ||
        decide (some (score_risk kd.kp (fd.map FlareReading.flareClass)
          (cd.map CmeReading.speed)) ≠ (load_cache i.cacheFile).last_risk)) := by
  obtain ⟨kh, fh, ch, cf, gw, nc, ni⟩ := i
  simp only [check_and_alert] at *
  rw [hk, hf, hc]
  dsimp only
  split
  · cases gw <;> simp_all
  · simp_all

/-- In a cycle whose three fetches return without raising and whose Kp
fetch yields a reading, `status.json` is written with the computed risk,
the readings and the fresh timestamp (source lines 245-260). -/
lemma cycle_status_eq (i : CycleInput) (kd : KpReading)
    (fd : Option FlareReading) (cd : Option CmeReading)
    (hk : fetch_latest_kp i.kpHttp = .value (some kd))
    (hf : fetch_latest_nasa_flare i.flareHttp = .value fd)
    (hc : fetch_latest_cme i.cmeHttp = .value cd) :
    (check_and_alert i).statusWritten =
      some
        { risk := score_risk kd.kp (fd.map FlareReading.flareClass)
            (cd.map CmeReading.speed)
          kp_value := kd.kp
          flare_class := fd.map FlareReading.flareClass
          cme_speed := cd.map CmeReading.speed
          time := i.nowClean } := by
  obtain ⟨kh, fh, ch, cf, gw, nc, ni⟩ := i
  simp only [check_and_alert] at *
  rw [hk, hf, hc]
  dsimp only
  split
  · cases gw <;> rfl
  · rfl

/-- In a cycle whose three fetches return without raising and whose Kp
fetch yields a reading, `save_cache` is called exactly when the notifier
was invoked and the gateway returned a sid, and then stores the new
reading, risk, sid and send time (source lines 264-278). -/
lemma cycle_saved_eq (i : CycleInput) (kd : KpReading)
    (fd : Option FlareReading) (cd : Option CmeReading)
    (hk : fetch_latest_kp i.kpHttp = .value (some kd))
    (hf : fetch_latest_nasa_flare i.flareHttp = .value fd)
    (hc : fetch_latest_cme i.cmeHttp = .value cd) :
    (check_and_alert i).savedCache =
      if (check_and_alert i).sent then
        match i.gateway with
        | none => none
        | some sid =>
          some
            { load_cache i.cacheFile with
              last_kp := kd.kp
              last_time := some (pyOrStr kd.time i.nowIso)
              last_risk := some (score_risk kd.kp
                (fd.map FlareReading.flareClass) (cd.map CmeReading.speed))
              last_sent_sid := some sid
              last_sent_at := some i.nowIso }
      else none := by
  obtain ⟨kh, fh, ch, cf, gw, nc, ni⟩ := i
  simp only [check_and_alert] at *
  rw [hk, hf, hc]
  dsimp only
  split
  · cases gw <;> rfl
  · rfl

/-- A sample message sid returned by the gateway. -/
def sidA : String := "SM001"

/-- A second sample message sid. -/
def sidB : String := "SM002"

/-- A sample observation timestamp. -/
def tagA : String := "2026-10-12T00:00:00Z"

/-- A sample wall-clock dashboard timestamp. -/
def cleanA : String := "2026-10-12 00:05:00 UTC"

/-- A second sample wall-clock dashboard timestamp. -/
def cleanB : String := "2026-10-12 00:10:00 UTC"

/-- A sample ISO wall-clock timestamp. -/
def isoA : String := "2026-10-12T00:05:00+00:00"

/-- A second sample ISO wall-clock timestamp. -/
def isoB : String := "2026-10-12T00:10:00+00:00"

/-- Claim C2: for every combination of inputs, `score_risk` returns the
maximum (under green < yellow < red, i.e. NORMAL < ELEVATED < CRITICAL) of
the three per-indicator severities, which are computed as: Kp value >= 6
gives red, >= 3 gives yellow, else green, a missing value gives green;
flare class X gives red, M gives yellow, else green; CME speed > 1000
gives red, > 600 gives yellow, else green, a missing speed gives green. -/
theorem score_risk_eq_max_of_indicators :
    (∀ kp_value flare_class cme_speed,
        score_risk kp_value flare_class cme_speed =
          Risk.max (Risk.max (kp_risk_of kp_value) (flare_risk_of flare_class))
            (cme_risk_of cme_speed))
    ∧ (∀ kp : ℚ, kp_risk_of (some kp) =
        if kp ≥ 6 then .red else if kp ≥ 3 then .yellow else .green)
    ∧ kp_risk_of none = .green
    ∧ (∀ ch : Char, flare_risk_of (some ch) =
        if ch = 'X' then .red else if ch = 'M' then .yellow else .green)
    ∧ flare_risk_of none = .green
    ∧ (∀ speed : ℚ, cme_risk_of (some speed) =
        if speed > 1000 then .red else if speed > 600 then .yellow else .green)
    ∧ cme_risk_of none = .green := by
  refine ⟨fun kp f c => ?_, fun kp => rfl, rfl, fun ch => ?_, rfl, fun s => rfl, rfl⟩
  · unfold score_risk
    exact cascade_eq_max _ _ _
  · simp only [flare_risk_of, Option.some.injEq]

/-- Claim C3: `score_risk` is monotonic in each argument: raising any one
indicator's per-indicator severity (keeping the others fixed, or raising
them too) never lowers the combined result under green < yellow < red. -/
theorem score_risk_monotone :
    ∀ kp_value kp_value₂ flare_class flare_class₂ cme_speed cme_speed₂,
      kp_risk_of kp_value ≤ kp_risk_of kp_value₂ →
      flare_risk_of flare_class ≤ flare_risk_of flare_class₂ →
      cme_risk_of cme_speed ≤ cme_risk_of cme_speed₂ →
      score_risk kp_value flare_class cme_speed ≤
        score_risk kp_value₂ flare_class₂ cme_speed₂ := by
  intro kp kp₂ f f₂ c c₂ hkp hf hc
  unfold score_risk
  rw [cascade_eq_max, cascade_eq_max]
  exact Risk.max_mono _ _ _ _ (Risk.max_mono _ _ _ _ hkp hf) hc

/-- Witness for C3: moving the Kp value from 2 (green) to 4 (yellow), with
the flare and CME inputs unavailable, does not lower the combined risk. -/
theorem score_risk_monotone_witness :
    score_risk (some 2) none none ≤ score_risk (some 4) none none :=
  score_risk_monotone (some 2) (some 4) none none none none
    (by decide) (by decide) (by decide)

/-- Claim C4: `score_risk` is total: on every combination of inputs it
returns one of the three valid severities, an unavailable (`none`) input
always contributes green (NORMAL) to the maximum, and in particular
`score_risk none none none` is green. -/
theorem score_risk_total :
    score_risk none none none = .green
    ∧ (∀ kp_value flare_class cme_speed,
        score_risk kp_value flare_class cme_speed = .green ∨
        score_risk kp_value flare_class cme_speed = .yellow ∨
        score_risk kp_value flare_class cme_speed = .red)
    ∧ (∀ flare_class cme_speed, score_risk none flare_class cme_speed =
        Risk.max (flare_risk_of flare_class) (cme_risk_of cme_speed))
    ∧ (∀ kp_value cme_speed, score_risk kp_value none cme_speed =
        Risk.max (kp_risk_of kp_value) (cme_risk_of cme_speed))
    ∧ (∀ kp_value flare_class, score_risk kp_value flare_class none =
        Risk.max (kp_risk_of kp_value) (flare_risk_of flare_class)) := by
  refine ⟨rfl, fun kp f c => ?_, fun f c => ?_, fun kp c => ?_, fun kp f => ?_⟩
  · cases h : score_risk kp f c
    · exact Or.inl rfl
    · exact Or.inr (Or.inl rfl)
    · exact Or.inr (Or.inr rfl)
  · unfold score_risk
    rw [cascade_eq_max]
    rw [show kp_risk_of none = .green from rfl, Risk.green_max]
  · unfold score_risk
    rw [cascade_eq_max]
    rw [show flare_risk_of none = .green from rfl, Risk.max_green]
  · unfold score_risk
    rw [cascade_eq_max]
    rw [show cme_risk_of none = .green from rfl, Risk.max_green]

/-- A NOAA entry reporting a quiet Kp of 0 (a legitimate reading). -/
def kpZeroEntry : KpEntry :=
  { kp_index := some 0
    kp := none
    Kp := none
    time_tag := some tagA
    date_time := none
    timestamp := none
    date := none }

/-- The reading `fetch_latest_kp` parses out of `kpZeroEntry`. -/
def kpZeroReading : KpReading :=
  { kp := some 0
    time := some tagA
    raw := kpZeroEntry }

/-- A NOAA entry reporting Kp 2.0 (green). -/
def kpTwoEntry : KpEntry :=
  { kp_index := some 2
    kp := none
    Kp := none
    time_tag := some tagA
    date_time := none
    timestamp := none
    date := none }

/-- The reading `fetch_latest_kp` parses out of `kpTwoEntry`. -/
def kpTwoReading : KpReading :=
  { kp := some 2
    time := some tagA
    raw := kpTwoEntry }

/-- A NOAA entry reporting Kp 4.0 (yellow). -/
def kpFourEntry : KpEntry :=
  { kp_index := some 4
    kp := none
    Kp := none
    time_tag := some tagA
    date_time := none
    timestamp := none
    date := none }

/-- The reading `fetch_latest_kp` parses out of `kpFourEntry`. -/
def kpFourReading : KpReading :=
  { kp := some 4
    time := some tagA
    raw := kpFourEntry }

/-- A fully initialised prior cache record whose stored Kp is 0 and whose
stored risk is green. -/
def zeroKpCache : Cache :=
  { last_kp := some 0
    last_time := some tagA
    last_risk := some .green
    last_sent_sid := some sidA
    last_sent_at := some isoA }

/-- A fully initialised prior cache record with stored Kp 2.0 and stored
risk green. -/
def quietCache : Cache :=
  { last_kp := some 2
    last_time := some tagA
    last_risk := some .green
    last_sent_sid := some sidA
    last_sent_at := some isoA }

/-- A cycle reading Kp 0 (green) against the stored-Kp-0 green record,
with a working gateway. -/
def zeroKpInput : CycleInput :=
  { kpHttp := .ok [kpZeroEntry]
    flareHttp := .ok []
    cmeHttp := .ok []
    cacheFile := .valid zeroKpCache
    gateway := some sidA
    nowClean := cleanA
    nowIso := isoA }

/-- The cycle following `zeroKpInput`, with identical readings. -/
def zeroKpInput2 : CycleInput :=
  { zeroKpInput with
    cacheFile := nextCacheFile zeroKpInput
    gateway := some sidB
    nowClean := cleanB
    nowIso := isoB }

/-- A first cycle reading Kp 4.0 against a fresh (missing) cache. -/
def freshKpFourInput : CycleInput :=
  { kpHttp := .ok [kpFourEntry]
    flareHttp := .ok []
    cmeHttp := .ok []
    cacheFile := .missing
    gateway := some sidA
    nowClean := cleanA
    nowIso := isoA }

/-- The cycle following `freshKpFourInput`, with identical readings. -/
def freshKpFourInput2 : CycleInput :=
  { freshKpFourInput with
    cacheFile := nextCacheFile freshKpFourInput
    gateway := some sidB
    nowClean := cleanB
    nowIso := isoB }

/-- Counterexample to claim C1: a fully initialised prior record is
present (stored Kp 0, stored risk green) and the newly computed severity
equals the stored one, yet the notifier is invoked — and is invoked again
on the following cycle computing the same severity, i.e. twice across two
consecutive equal-severity cycles with a prior record present. -/
theorem dispatch_not_iff_counterexample :
    zeroKpInput.cacheFile = .valid zeroKpCache
    ∧ score_risk (some 0) none none = .green
    ∧ zeroKpCache.last_risk = some .green
    ∧ (check_and_alert zeroKpInput).sent = true
    ∧ zeroKpInput2.cacheFile = nextCacheFile zeroKpInput
    ∧ (check_and_alert zeroKpInput2).sent = true := by
  decide

/-- Claim C1 as amended: in a cycle that obtains a Kp reading and computes
a risk, `check_and_alert` invokes the notifier if and only if the cached
`last_kp` is falsy (absent, null or zero — in particular when no prior
record exists) or the newly computed severity differs from the cached
`last_risk`; and two consecutive cycles computing the same severity invoke
the notifier at most once across both, provided the first cycle's newly
read Kp value is non-falsy and its gateway returns a sid. -/
theorem dispatch_condition_amended :
    (∀ i kd fd cd,
      fetch_latest_kp i.kpHttp = .value (some kd) →
      fetch_latest_nasa_flare i.flareHttp = .value fd →
      fetch_latest_cme i.cmeHttp = .value cd →
      ((check_and_alert i).sent = true ↔
        (falsyNum (load_cache i.cacheFile).last_kp = true ∨
          some (score_risk kd.kp (fd.map FlareReading.flareClass)
            (cd.map CmeReading.speed)) ≠ (load_cache i.cacheFile).last_risk)))
    ∧ (∀ i i₂ kd fd cd kd₂ fd₂ cd₂,
      fetch_latest_kp i.kpHttp = .value (some kd) →
      fetch_latest_nasa_flare i.flareHttp = .value fd →
      fetch_latest_cme i.cmeHttp = .value cd →
      fetch_latest_kp i₂.kpHttp = .value (some kd₂) →
      fetch_latest_nasa_flare i₂.flareHttp = .value fd₂ →
      fetch_latest_cme i₂.cmeHttp = .value cd₂ →
      i₂.cacheFile = nextCacheFile i →
      score_risk kd₂.kp (fd₂.map FlareReading.flareClass)
          (cd₂.map CmeReading.speed) =
        score_risk kd.kp (fd.map FlareReading.flareClass)
          (cd.map CmeReading.speed) →
      falsyNum kd.kp = false →
      i.gateway.isSome = true →
      ¬((check_and_alert i).sent = true ∧ (check_and_alert i₂).sent = true)) := by
  constructor
  · intro i kd fd cd hk hf hc
    rw [cycle_sent_iff i kd fd cd hk hf hc]
    simp
  · intro i i₂ kd fd cd kd₂ fd₂ cd₂ hk hf hc hk₂ hf₂ hc₂ hchain hrisk hkp hgw
    rintro ⟨hs1, hs2⟩
    obtain ⟨sid, hsid⟩ := Option.isSome_iff_exists.mp hgw
    have hsaved := cycle_saved_eq i kd fd cd hk hf hc
    rw [hs1, hsid] at hsaved
    simp only [if_true] at hsaved
    have hnext : nextCacheFile i = .valid
        { load_cache i.cacheFile with
          last_kp := kd.kp
          last_time := some (pyOrStr kd.time i.nowIso)
          last_risk := some (score_risk kd.kp (fd.map FlareReading.flareClass)
            (cd.map CmeReading.speed))
          last_sent_sid := some sid
          last_sent_at := some i.nowIso } := by
      unfold nextCacheFile
      rw [hsaved]
    have hsent₂ := cycle_sent_iff i₂ kd₂ fd₂ cd₂ hk₂ hf₂ hc₂
    rw [hs2, hchain, hnext] at hsent₂
    simp [load_cache, hrisk, hkp] at hsent₂

/-- Witness for the amended C1: a fresh cache forces a send, and the two
consecutive yellow cycles with Kp 4.0 notify at most once. -/
theorem dispatch_condition_amended_witness :
    (check_and_alert freshKpFourInput).sent = true
    ∧ ¬((check_and_alert freshKpFourInput).sent = true ∧
        (check_and_alert freshKpFourInput2).sent = true) :=
  ⟨(dispatch_condition_amended.1 freshKpFourInput kpFourReading none none
      rfl rfl rfl).mpr (Or.inl (by decide)),
    dispatch_condition_amended.2 freshKpFourInput freshKpFourInput2
      kpFourReading none none kpFourReading none none
      rfl rfl rfl rfl rfl rfl rfl rfl (by decide) rfl⟩

/-- A cycle whose Kp request fails at the transport layer. -/
def kpDownInput : CycleInput :=
  { kpHttp := .transportError
    flareHttp := .ok []
    cmeHttp := .ok []
    cacheFile := .missing
    gateway := some sidA
    nowClean := cleanA
    nowIso := isoA }

/-- Counterexample to claim C5: on a transport failure or timeout the Kp
source fetch does not return Unavailable — `fetch_latest_kp` has no
try/except, so the exception propagates to `check_and_alert` and the
whole cycle is abandoned by the boundary handler (no status written, no
notification, nothing cached), rather than proceeding with partial data. -/
theorem kp_fetch_raises_counterexample :
    fetch_latest_kp (.transportError : HttpResult (List KpEntry)) = .raised
    ∧ fetch_latest_kp (.transportError : HttpResult (List KpEntry)) ≠ .value none
    ∧ check_and_alert kpDownInput = CycleResult.nothing := by
  decide

/-- Claim C5 as amended: the flare and CME source fetches return
Unavailable (None) on transport failure, timeout, HTTP error status or
malformed payload rather than raising, so the orchestrator proceeds with
partial data for those; the Kp fetch instead raises in all these cases,
ending the cycle at the orchestrator boundary. -/
theorem fetch_failure_policy :
    (∀ r : HttpResult (List FlareEntry),
      r = .transportError ∨ (∃ code, r = .httpError code) ∨ r = .malformed →
      fetch_latest_nasa_flare r = .value none)
    ∧ (∀ r : HttpResult (List CmeEntry),
      r = .transportError ∨ (∃ code, r = .httpError code) ∨ r = .malformed →
      fetch_latest_cme r = .value none)
    ∧ (∀ r : HttpResult (List KpEntry),
      r = .transportError ∨ (∃ code, r = .httpError code) ∨ r = .malformed →
      fetch_latest_kp r = .raised) := by
  refine ⟨?_, ?_, ?_⟩ <;> rintro r (rfl | ⟨code, rfl⟩ | rfl) <;> rfl

/-- Witness for the amended C5, at a transport error. -/
theorem fetch_failure_policy_witness :
    fetch_latest_nasa_flare (.transportError : HttpResult (List FlareEntry)) =
      .value none
    ∧ fetch_latest_cme (.transportError : HttpResult (List CmeEntry)) =
      .value none
    ∧ fetch_latest_kp (.transportError : HttpResult (List KpEntry)) = .raised :=
  ⟨fetch_failure_policy.1 _ (Or.inl rfl),
    fetch_failure_policy.2.1 _ (Or.inl rfl),
    fetch_failure_policy.2.2 _ (Or.inl rfl)⟩

/-- A cycle reading Kp 4.0 (yellow, different from the cached green) whose
gateway raises. -/
def gatewayDownInput : CycleInput :=
  { kpHttp := .ok [kpFourEntry]
    flareHttp := .ok []
    cmeHttp := .ok []
    cacheFile := .valid quietCache
    gateway := none
    nowClean := cleanA
    nowIso := isoA }

/-- The cycle following `gatewayDownInput`, identical readings, working
gateway. -/
def gatewayDownInput2 : CycleInput :=
  { gatewayDownInput with
    cacheFile := nextCacheFile gatewayDownInput
    gateway := some sidB
    nowClean := cleanB
    nowIso := isoB }

/-- Counterexample to claim C6: the gateway raises during dispatch; the
cycle does not persist the newly computed readings and severity to the
dedup cache (`save_cache` is never reached, the cache file keeps its old
contents), and the next cycle computing the same unchanged severity DOES
retry the notification. -/
theorem dispatch_failure_counterexample :
    gatewayDownInput.gateway = none
    ∧ (check_and_alert gatewayDownInput).sent = true
    ∧ (check_and_alert gatewayDownInput).savedCache = none
    ∧ nextCacheFile gatewayDownInput = .valid quietCache
    ∧ score_risk (some 4) none none = .yellow
    ∧ (check_and_alert gatewayDownInput2).sent = true := by
  decide

/-- Claim C6 as amended: when the notifier dispatch fails, the cycle does
not advance `lastNotifiedAt`/`lastNotificationId` — indeed it persists
nothing at all to the dedup cache, not even the new readings and severity,
because `save_cache` only runs after a successful send; the dashboard
status record was already written before the attempt; and, the dedup cache
being unchanged, a next cycle that computes the same severity and sent in
the failed cycle retries the notification. -/
theorem dispatch_failure_amended :
    ∀ i kd fd cd,
      fetch_latest_kp i.kpHttp = .value (some kd) →
      fetch_latest_nasa_flare i.flareHttp = .value fd →
      fetch_latest_cme i.cmeHttp = .value cd →
      i.gateway = none →
      (check_and_alert i).savedCache = none
      ∧ (check_and_alert i).statusWritten =
          some
            { risk := score_risk kd.kp (fd.map FlareReading.flareClass)
                (cd.map CmeReading.speed)
              kp_value := kd.kp
              flare_class := fd.map FlareReading.flareClass
              cme_speed := cd.map CmeReading.speed
              time := i.nowClean }
      ∧ nextCacheFile i = i.cacheFile
      ∧ (∀ i₂ kd₂ fd₂ cd₂,
          fetch_latest_kp i₂.kpHttp = .value (some kd₂) →
          fetch_latest_nasa_flare i₂.flareHttp = .value fd₂ →
          fetch_latest_cme i₂.cmeHttp = .value cd₂ →
          i₂.cacheFile = i.cacheFile →
          score_risk kd₂.kp (fd₂.map FlareReading.flareClass)
              (cd₂.map CmeReading.speed) =
            score_risk kd.kp (fd.map FlareReading.flareClass)
              (cd.map CmeReading.speed) →
          (check_and_alert i).sent = true →
          (check_and_alert i₂).sent = true) := by
  intro i kd fd cd hk hf hc hgw
  have hsaved := cycle_saved_eq i kd fd cd hk hf hc
  rw [hgw] at hsaved
  have hsavednone : (check_and_alert i).savedCache = none := by
    rw [hsaved]
    split <;> rfl
  refine ⟨hsavednone, cycle_status_eq i kd fd cd hk hf hc, ?_, ?_⟩
  · unfold nextCacheFile
    rw [hsavednone]
  · intro i₂ kd₂ fd₂ cd₂ hk₂ hf₂ hc₂ hcf₂ hrisk hs1
    have h1 := cycle_sent_iff i kd fd cd hk hf hc
    have h2 := cycle_sent_iff i₂ kd₂ fd₂ cd₂ hk₂ hf₂ hc₂
    rw [hs1] at h1
    rw [h2, hcf₂, hrisk, ← h1]

/-- Witness for the amended C6: the failed yellow dispatch saves nothing
to the dedup cache and the following yellow cycle retries. -/
theorem dispatch_failure_amended_witness :
    (check_and_alert gatewayDownInput).savedCache = none
    ∧ (check_and_alert gatewayDownInput2).sent = true := by
  have h := dispatch_failure_amended gatewayDownInput kpFourReading none none
    rfl rfl rfl rfl
  exact ⟨h.1, h.2.2.2 gatewayDownInput2 kpFourReading none none rfl rfl rfl
    (by decide) rfl (by decide)⟩

/-- A no-change green cycle: Kp 2.0 against the stored Kp-2 green record. -/
def noChangeInput : CycleInput :=
  { kpHttp := .ok [kpTwoEntry]
    flareHttp := .ok []
    cmeHttp := .ok []
    cacheFile := .valid quietCache
    gateway := some sidA
    nowClean := cleanB
    nowIso := isoB }

/-- Claim C7: every cycle that obtains a Kp reading and computes a
severity writes the latest readings, the severity and the freshly taken
timestamp to `status.json`, regardless of whether a notification fired. -/
theorem status_always_persisted :
    ∀ i kd fd cd,
      fetch_latest_kp i.kpHttp = .value (some kd) →
      fetch_latest_nasa_flare i.flareHttp = .value fd →
      fetch_latest_cme i.cmeHttp = .value cd →
      (check_and_alert i).statusWritten =
        some
          { risk := score_risk kd.kp (fd.map FlareReading.flareClass)
              (cd.map CmeReading.speed)
            kp_value := kd.kp
            flare_class := fd.map FlareReading.flareClass
            cme_speed := cd.map CmeReading.speed
            time := i.nowClean } := by
  intro i kd fd cd hk hf hc
  exact cycle_status_eq i kd fd cd hk hf hc

/-- Witness for C7, at the spec's concrete scenario: Kp 2.0, no flare or
CME data, previous severity green — no notification, yet the status
record is written with the updated timestamp. -/
theorem status_always_persisted_witness :
    (check_and_alert noChangeInput).statusWritten =
      some
        { risk := .green
          kp_value := some 2
          flare_class := none
          cme_speed := none
          time := cleanB }
    ∧ (check_and_alert noChangeInput).sent = false :=
  ⟨status_always_persisted noChangeInput kpTwoReading none none rfl rfl rfl,
    by decide⟩

/-- A cycle reading Kp 2.0 against a corrupted cache file. -/
def corruptedCacheInput : CycleInput :=
  { kpHttp := .ok [kpTwoEntry]
    flareHttp := .ok []
    cmeHttp := .ok []
    cacheFile := .corrupted
    gateway := some sidA
    nowClean := cleanA
    nowIso := isoA }

/-- Claim C8: `load_cache` returns the well-defined empty record `{}` both
on a missing state file and on corrupted/unreadable content; the empty
record's stored severity is the uninitialized `none`, distinct from green
(NORMAL), and any completed cycle against a missing or corrupted cache
file dispatches a notification unconditionally. -/
theorem load_cache_resilient_forces_notify :
    load_cache .missing = emptyCache
    ∧ load_cache .corrupted = emptyCache
    ∧ emptyCache.last_risk = none
    ∧ emptyCache.last_risk ≠ some .green
    ∧ (∀ i kd fd cd,
        fetch_latest_kp i.kpHttp = .value (some kd) →
        fetch_latest_nasa_flare i.flareHttp = .value fd →
        fetch_latest_cme i.cmeHttp = .value cd →
        (i.cacheFile = .missing ∨ i.cacheFile = .corrupted) →
        (check_and_alert i).sent = true) := by
  refine ⟨rfl, rfl, rfl, by decide, ?_⟩
  intro i kd fd cd hk hf hc hcf
  rw [cycle_sent_iff i kd fd cd hk hf hc]
  rcases hcf with h | h <;> rw [h] <;> rfl

/-- Witness for C8: a corrupted cache file forces a notification even for
a green reading. -/
theorem load_cache_resilient_forces_notify_witness :
    (check_and_alert corruptedCacheInput).sent = true :=
  load_cache_resilient_forces_notify.2.2.2.2 corruptedCacheInput kpTwoReading
    none none rfl rfl rfl (Or.inr rfl)

/-- Counterexample to claim C9: with Kp 4.0 and flare class C the combined
risk is yellow and flare data is present, but the flare-risk note is not
appended: the yellow message carries only the title, the observation line
and the navigation advisory. -/
theorem yellow_flare_note_counterexample :
    score_risk (some 4) (some 'C') none = .yellow
    ∧ (some 'C' : Option Char) ≠ none
    ∧ format_message_lines .yellow (some 4) tagA (some 'C') none enLang =
        [PHRASES_en.title_yellow,
          message_obs_line PHRASES_en (some 4) tagA (some 'C') none,
          PHRASES_en.gps_advice]
    ∧ PHRASES_en.flare_risk ∉
        format_message_lines .yellow (some 4) tagA (some 'C') none enLang := by
  refine ⟨by decide, by decide, ?_, by decide⟩
  rfl

/-- Claim C9 as amended: `format_message` joins the built lines, and for
every yellow (ELEVATED) message the navigation advisory is appended while
the flare-risk note is appended iff the flare class is exactly M or a CME
speed is present and nonzero; a present flare class other than M (such as
C) does not by itself trigger the note. -/
theorem yellow_message_advisories :
    (∀ risk kp_val time_str flare_class cme_speed lang,
      format_message risk kp_val time_str flare_class cme_speed lang =
        String.intercalate newlineStr
          (format_message_lines risk kp_val time_str flare_class cme_speed lang))
    ∧ (∀ (kp_val : Option ℚ) (time_str : String) (flare_class : Option Char)
        (cme_speed : Option ℚ) (lang : String),
      format_message_lines .yellow kp_val time_str flare_class cme_speed lang =
        [message_title ((PHRASES lang).getD PHRASES_en) .yellow,
          message_obs_line ((PHRASES lang).getD PHRASES_en) kp_val time_str
            flare_class cme_speed,
          ((PHRASES lang).getD PHRASES_en).gps_advice] ++
          (if flare_class = some 'M' ∨ cmeTruthy cme_speed then
            [((PHRASES lang).getD PHRASES_en).flare_risk]
          else [])) := by
  refine ⟨fun risk kp t fc cs lang => rfl, fun kp t fc cs lang => ?_⟩
  dsimp only [format_message_lines]
  split <;> rfl

/-- Claim C10: the dispatch decision of `check_and_alert` tests the
truthiness of the cached `last_kp`, not the presence of a prior record:
whenever the stored `last_kp` of a valid cache record is falsy (null or
zero), a completed cycle dispatches a notification — with no condition on
the newly computed risk, so also when it equals the cached `last_risk`. -/
theorem dispatch_tests_last_kp_truthiness :
    ∀ i kd fd cd contents,
      fetch_latest_kp i.kpHttp = .value (some kd) →
      fetch_latest_nasa_flare i.flareHttp = .value fd →
      fetch_latest_cme i.cmeHttp = .value cd →
      i.cacheFile = .valid contents →
      falsyNum contents.last_kp = true →
      (check_and_alert i).sent = true := by
  intro i kd fd cd contents hk hf hc hcf hfal
  rw [cycle_sent_iff i kd fd cd hk hf hc, hcf]
  simp [load_cache, hfal]

/-- Witness for C10: stored Kp 0 with stored risk green and a newly
computed green risk still dispatches. -/
theorem dispatch_tests_last_kp_truthiness_witness :
    (check_and_alert zeroKpInput).sent = true
    ∧ zeroKpCache.last_risk = some (score_risk kpZeroReading.kp none none) :=
  ⟨dispatch_tests_last_kp_truthiness zeroKpInput kpZeroReading none none
      zeroKpCache rfl rfl rfl rfl (by decide),
    by decide⟩

end SpaceAlert
